import Mathlib

set_option maxRecDepth 20000
set_option maxHeartbeats 4000000

/-!
Verification of the event-translation core of `bluetooth_2_usb`
(`bluetooth_2_usb/evdev_adapter.py`).

The adapter is a pure translation layer: a keyboard/button event carrying an
evdev scan code is looked up in a single flat dictionary `_EVDEV_TO_HID`
(built as one Python dict literal, so a duplicated key keeps only its last
binding), classified onto a HID usage page via two membership sets
(`_CONSUMER_KEYS`, `_MOUSE_BUTTONS`), and reverse-mapped to symbolic names
for logging.  Relative-motion events are decoded per axis by
`get_mouse_movement`.

Scan-code values are the Linux `input-event-codes.h` constants re-exported by
the project's `ecodes` module; usage-id values are the HID usage-table
constants of the `Keycode`, `ConsumerControlCode` and `MouseButton` classes
the adapter imports.  Each table entry below carries the source names in a
comment.
-/

/-- A key/button event as consumed by the adapter: `KeyEvent.scancode` plus
the logical direction (`keystate`: press/release/repeat), which the
translation functions never read. -/
structure KeyEvent where
  scancode : Nat
  keystate : Nat
  deriving DecidableEq, Repr

/-- A relative-axis event (`RelEvent.event` in evdev terms): the axis `code`
and the signed `value`. -/
structure RelEvent where
  code : Nat
  value : Int
  deriving DecidableEq, Repr

/-- The three HID code classes the adapter can return from
`get_hid_code_type`: `Keycode`, `ConsumerControlCode`, `MouseButton`. -/
inductive HidCodeType where
  | keycode
  | consumerControl
  | mouseButton
  deriving DecidableEq, Repr

/-- The `_EVDEV_TO_HID` dict literal of the source, kept in source order as
an association list.  Python dict-literal semantics: a key bound twice keeps
the later value (see `dict_get`).  Left components are evdev scan codes,
right components HID usage ids; comments give the source spelling. -/
def _EVDEV_TO_HID : List (Nat × Nat) := [
  (30, 4),    -- ecodes.KEY_A: Keycode.A
  (48, 5),    -- ecodes.KEY_B: Keycode.B
  (46, 6),    -- ecodes.KEY_C: Keycode.C
  (32, 7),    -- ecodes.KEY_D: Keycode.D
  (18, 8),    -- ecodes.KEY_E: Keycode.E
  (33, 9),    -- ecodes.KEY_F: Keycode.F
  (34, 10),   -- ecodes.KEY_G: Keycode.G
  (35, 11),   -- ecodes.KEY_H: Keycode.H
  (23, 12),   -- ecodes.KEY_I: Keycode.I
  (36, 13),   -- ecodes.KEY_J: Keycode.J
  (37, 14),   -- ecodes.KEY_K: Keycode.K
  (38, 15),   -- ecodes.KEY_L: Keycode.L
  (50, 16),   -- ecodes.KEY_M: Keycode.M
  (49, 17),   -- ecodes.KEY_N: Keycode.N
  (24, 18),   -- ecodes.KEY_O: Keycode.O
  (25, 19),   -- ecodes.KEY_P: Keycode.P
  (16, 20),   -- ecodes.KEY_Q: Keycode.Q
  (19, 21),   -- ecodes.KEY_R: Keycode.R
  (31, 22),   -- ecodes.KEY_S: Keycode.S
  (20, 23),   -- ecodes.KEY_T: Keycode.T
  (22, 24),   -- ecodes.KEY_U: Keycode.U
  (47, 25),   -- ecodes.KEY_V: Keycode.V
  (17, 26),   -- ecodes.KEY_W: Keycode.W
  (45, 27),   -- ecodes.KEY_X: Keycode.X
  (21, 28),   -- ecodes.KEY_Y: Keycode.Y
  (44, 29),   -- ecodes.KEY_Z: Keycode.Z
  (2, 30),    -- ecodes.KEY_1: Keycode.ONE
  (3, 31),    -- ecodes.KEY_2: Keycode.TWO
  (4, 32),    -- ecodes.KEY_3: Keycode.THREE
  (5, 33),    -- ecodes.KEY_4: Keycode.FOUR
  (6, 34),    -- ecodes.KEY_5: Keycode.FIVE
  (7, 35),    -- ecodes.KEY_6: Keycode.SIX
  (8, 36),    -- ecodes.KEY_7: Keycode.SEVEN
  (9, 37),    -- ecodes.KEY_8: Keycode.EIGHT
  (10, 38),   -- ecodes.KEY_9: Keycode.NINE
  (11, 39),   -- ecodes.KEY_0: Keycode.ZERO
  (28, 40),   -- ecodes.KEY_ENTER: Keycode.ENTER
  (1, 41),    -- ecodes.KEY_ESC: Keycode.ESCAPE
  (14, 42),   -- ecodes.KEY_BACKSPACE: Keycode.BACKSPACE
  (15, 43),   -- ecodes.KEY_TAB: Keycode.TAB
  (57, 44),   -- ecodes.KEY_SPACE: Keycode.SPACEBAR
  (12, 45),   -- ecodes.KEY_MINUS: Keycode.MINUS
  (13, 46),   -- ecodes.KEY_EQUAL: Keycode.EQUALS
  (26, 47),   -- ecodes.KEY_LEFTBRACE: Keycode.LEFT_BRACKET
  (27, 48),   -- ecodes.KEY_RIGHTBRACE: Keycode.RIGHT_BRACKET
  (43, 50),   -- ecodes.KEY_BACKSLASH: Keycode.POUND
  (39, 51),   -- ecodes.KEY_SEMICOLON: Keycode.SEMICOLON
  (40, 52),   -- ecodes.KEY_APOSTROPHE: Keycode.QUOTE
  (41, 53),   -- ecodes.KEY_GRAVE: Keycode.GRAVE_ACCENT
  (51, 54),   -- ecodes.KEY_COMMA: Keycode.COMMA
  (52, 55),   -- ecodes.KEY_DOT: Keycode.PERIOD
  (53, 56),   -- ecodes.KEY_SLASH: Keycode.FORWARD_SLASH
  (58, 57),   -- ecodes.KEY_CAPSLOCK: Keycode.CAPS_LOCK
  (59, 58),   -- ecodes.KEY_F1: Keycode.F1
  (60, 59),   -- ecodes.KEY_F2: Keycode.F2
  (61, 60),   -- ecodes.KEY_F3: Keycode.F3
  (62, 61),   -- ecodes.KEY_F4: Keycode.F4
  (63, 62),   -- ecodes.KEY_F5: Keycode.F5
  (64, 63),   -- ecodes.KEY_F6: Keycode.F6
  (65, 64),   -- ecodes.KEY_F7: Keycode.F7
  (66, 65),   -- ecodes.KEY_F8: Keycode.F8
  (67, 66),   -- ecodes.KEY_F9: Keycode.F9
  (68, 67),   -- ecodes.KEY_F10: Keycode.F10
  (87, 68),   -- ecodes.KEY_F11: Keycode.F11
  (88, 69),   -- ecodes.KEY_F12: Keycode.F12
  (99, 70),   -- ecodes.KEY_SYSRQ: Keycode.PRINT_SCREEN
  (70, 71),   -- ecodes.KEY_SCROLLLOCK: Keycode.SCROLL_LOCK
  (119, 72),  -- ecodes.KEY_PAUSE: Keycode.PAUSE
  (110, 73),  -- ecodes.KEY_INSERT: Keycode.INSERT
  (102, 74),  -- ecodes.KEY_HOME: Keycode.HOME
  (104, 75),  -- ecodes.KEY_PAGEUP: Keycode.PAGE_UP
  (111, 76),  -- ecodes.KEY_DELETE: Keycode.DELETE
  (107, 77),  -- ecodes.KEY_END: Keycode.END
  (109, 78),  -- ecodes.KEY_PAGEDOWN: Keycode.PAGE_DOWN
  (106, 79),  -- ecodes.KEY_RIGHT: Keycode.RIGHT_ARROW
  (105, 80),  -- ecodes.KEY_LEFT: Keycode.LEFT_ARROW
  (108, 81),  -- ecodes.KEY_DOWN: Keycode.DOWN_ARROW
  (103, 82),  -- ecodes.KEY_UP: Keycode.UP_ARROW
  (69, 83),   -- ecodes.KEY_NUMLOCK: Keycode.KEYPAD_NUMLOCK
  (98, 84),   -- ecodes.KEY_KPSLASH: Keycode.KEYPAD_FORWARD_SLASH
  (55, 85),   -- ecodes.KEY_KPASTERISK: Keycode.KEYPAD_ASTERISK
  (74, 86),   -- ecodes.KEY_KPMINUS: Keycode.KEYPAD_MINUS
  (78, 87),   -- ecodes.KEY_KPPLUS: Keycode.KEYPAD_PLUS
  (96, 88),   -- ecodes.KEY_KPENTER: Keycode.KEYPAD_ENTER
  (79, 89),   -- ecodes.KEY_KP1: Keycode.KEYPAD_ONE
  (80, 90),   -- ecodes.KEY_KP2: Keycode.KEYPAD_TWO
  (81, 91),   -- ecodes.KEY_KP3: Keycode.KEYPAD_THREE
  (75, 92),   -- ecodes.KEY_KP4: Keycode.KEYPAD_FOUR
  (76, 93),   -- ecodes.KEY_KP5: Keycode.KEYPAD_FIVE
  (77, 94),   -- ecodes.KEY_KP6: Keycode.KEYPAD_SIX
  (71, 95),   -- ecodes.KEY_KP7: Keycode.KEYPAD_SEVEN
  (72, 96),   -- ecodes.KEY_KP8: Keycode.KEYPAD_EIGHT
  (73, 97),   -- ecodes.KEY_KP9: Keycode.KEYPAD_NINE
  (82, 98),   -- ecodes.KEY_KP0: Keycode.KEYPAD_ZERO
  (83, 99),   -- ecodes.KEY_KPDOT: Keycode.KEYPAD_PERIOD
  (86, 100),  -- ecodes.KEY_102ND: Keycode.KEYPAD_BACKSLASH
  (127, 101), -- ecodes.KEY_COMPOSE: Keycode.APPLICATION
  (116, 102), -- ecodes.KEY_POWER: Keycode.POWER
  (117, 103), -- ecodes.KEY_KPEQUAL: Keycode.KEYPAD_EQUALS
  (121, 133), -- ecodes.KEY_KPCOMMA: Keycode.KEYPAD_COMMA
  (183, 104), -- ecodes.KEY_F13: Keycode.F13
  (184, 105), -- ecodes.KEY_F14: Keycode.F14
  (185, 106), -- ecodes.KEY_F15: Keycode.F15
  (186, 107), -- ecodes.KEY_F16: Keycode.F16
  (187, 108), -- ecodes.KEY_F17: Keycode.F17
  (188, 109), -- ecodes.KEY_F18: Keycode.F18
  (189, 110), -- ecodes.KEY_F19: Keycode.F19
  (190, 111), -- ecodes.KEY_F20: Keycode.F20
  (191, 112), -- ecodes.KEY_F21: Keycode.F21
  (192, 113), -- ecodes.KEY_F22: Keycode.F22
  (193, 114), -- ecodes.KEY_F23: Keycode.F23
  (194, 115), -- ecodes.KEY_F24: Keycode.F24
  (29, 224),  -- ecodes.KEY_LEFTCTRL: Keycode.LEFT_CONTROL
  (42, 225),  -- ecodes.KEY_LEFTSHIFT: Keycode.LEFT_SHIFT
  (56, 226),  -- ecodes.KEY_LEFTALT: Keycode.LEFT_ALT
  (125, 227), -- ecodes.KEY_LEFTMETA: Keycode.LEFT_GUI
  (97, 228),  -- ecodes.KEY_RIGHTCTRL: Keycode.RIGHT_CONTROL
  (54, 229),  -- ecodes.KEY_RIGHTSHIFT: Keycode.RIGHT_SHIFT
  (100, 230), -- ecodes.KEY_RIGHTALT: Keycode.RIGHT_ALT
  (126, 231), -- ecodes.KEY_RIGHTMETA: Keycode.RIGHT_GUI
  (272, 1),   -- ecodes.BTN_LEFT: MouseButton.LEFT
  (273, 2),   -- ecodes.BTN_RIGHT: MouseButton.RIGHT
  (274, 4),   -- ecodes.BTN_MIDDLE: MouseButton.MIDDLE
  (116, 48),  -- ecodes.KEY_POWER: ConsumerControlCode.POWER (duplicate key)
  (408, 49),  -- ecodes.KEY_RESTART: ConsumerControlCode.RESET
  (142, 50),  -- ecodes.KEY_SLEEP: ConsumerControlCode.SLEEP
  (256, 54),  -- ecodes.BTN_MISC: ConsumerControlCode.FUNCTION_BUTTONS
  (139, 64),  -- ecodes.KEY_MENU: ConsumerControlCode.MENU
  (353, 65),  -- ecodes.KEY_SELECT: ConsumerControlCode.MENU_PICK
  (358, 445), -- ecodes.KEY_INFO: ConsumerControlCode.AL_OEM_FEATURES_TIPS_TUTORIAL_BROWSER
  (370, 97),  -- ecodes.KEY_SUBTITLE: ConsumerControlCode.CLOSED_CAPTION
  (379, 146), -- ecodes.KEY_VCR: ConsumerControlCode.MEDIA_SELECT_VCR
  (212, 101), -- ecodes.KEY_CAMERA: ConsumerControlCode.SNAPSHOT
  (398, 105), -- ecodes.KEY_RED: ConsumerControlCode.RED_MENU_BUTTON
  (399, 106), -- ecodes.KEY_GREEN: ConsumerControlCode.GREEN_MENU_BUTTON
  (401, 107), -- ecodes.KEY_BLUE: ConsumerControlCode.BLUE_MENU_BUTTON
  (400, 108), -- ecodes.KEY_YELLOW: ConsumerControlCode.YELLOW_MENU_BUTTON
  (375, 109), -- ecodes.KEY_ASPECT_RATIO: ConsumerControlCode.ASPECT
  (225, 111), -- ecodes.KEY_BRIGHTNESSUP: ConsumerControlCode.DISPLAY_BRIGHTNESS_INCREMENT
  (224, 112), -- ecodes.KEY_BRIGHTNESSDOWN: ConsumerControlCode.DISPLAY_BRIGHTNESS_DECREMENT
  (431, 114), -- ecodes.KEY_BRIGHTNESS_TOGGLE: ConsumerControlCode.DISPLAY_BACKLIGHT_TOGGLE
  (592, 115), -- ecodes.KEY_BRIGHTNESS_MIN: ConsumerControlCode.DISPLAY_SET_BRIGHTNESS_TO_MINIMUM
  (593, 116), -- ecodes.KEY_BRIGHTNESS_MAX: ConsumerControlCode.DISPLAY_SET_BRIGHTNESS_TO_MAXIMUM
  (244, 117), -- ecodes.KEY_BRIGHTNESS_AUTO: ConsumerControlCode.DISPLAY_SET_AUTO_BRIGHTNESS
  (587, 118), -- ecodes.KEY_CAMERA_ACCESS_ENABLE: ConsumerControlCode.CAMERA_ACCESS_ENABLED
  (588, 119), -- ecodes.KEY_CAMERA_ACCESS_DISABLE: ConsumerControlCode.CAMERA_ACCESS_DISABLED
  (589, 120), -- ecodes.KEY_CAMERA_ACCESS_TOGGLE: ConsumerControlCode.CAMERA_ACCESS_TOGGLE
  (230, 121), -- ecodes.KEY_KBDILLUMUP: ConsumerControlCode.KEYBOARD_BRIGHTNESS_INCREMENT
  (229, 122), -- ecodes.KEY_KBDILLUMDOWN: ConsumerControlCode.KEYBOARD_BRIGHTNESS_DECREMENT
  (228, 124), -- ecodes.KEY_KBDILLUMTOGGLE: ConsumerControlCode.KEYBOARD_BACKLIGHT_OOC
  (241, 130), -- ecodes.KEY_VIDEO_NEXT: ConsumerControlCode.MODE_STEP
  (405, 131), -- ecodes.KEY_LAST: ConsumerControlCode.RECALL_LAST
  (376, 136), -- ecodes.KEY_PC: ConsumerControlCode.MEDIA_SELECT_COMPUTER
  (377, 137), -- ecodes.KEY_TV: ConsumerControlCode.MEDIA_SELECT_TV
  (150, 406), -- ecodes.KEY_WWW: ConsumerControlCode.AL_INTERNET_BROWSER
  (389, 139), -- ecodes.KEY_DVD: ConsumerControlCode.MEDIA_SELECT_DVD
  (169, 140), -- ecodes.KEY_PHONE: ConsumerControlCode.MEDIA_SELECT_TELEPHONE
  (362, 141), -- ecodes.KEY_PROGRAM: ConsumerControlCode.MEDIA_SELECT_PROGRAM_GUIDE
  (416, 142), -- ecodes.KEY_VIDEOPHONE: ConsumerControlCode.MEDIA_SELECT_VIDEO_PHONE
  (417, 143), -- ecodes.KEY_GAMES: ConsumerControlCode.MEDIA_SELECT_GAMES
  (396, 144), -- ecodes.KEY_MEMO: ConsumerControlCode.MEDIA_SELECT_MESSAGES
  (383, 145), -- ecodes.KEY_CD: ConsumerControlCode.MEDIA_SELECT_CD
  (386, 147), -- ecodes.KEY_TUNER: ConsumerControlCode.MEDIA_SELECT_TUNER
  (174, 516), -- ecodes.KEY_EXIT: ConsumerControlCode.AC_EXIT
  (138, 422), -- ecodes.KEY_HELP: ConsumerControlCode.AL_INTEGRATED_HELP_CENTER
  (384, 150), -- ecodes.KEY_TAPE: ConsumerControlCode.MEDIA_SELECT_TAPE
  (378, 151), -- ecodes.KEY_TV2: ConsumerControlCode.MEDIA_SELECT_CABLE
  (381, 152), -- ecodes.KEY_SAT: ConsumerControlCode.MEDIA_SELECT_SATELLITE
  (366, 154), -- ecodes.KEY_PVR: ConsumerControlCode.MEDIA_SELECT_HOME
  (402, 156), -- ecodes.KEY_CHANNELUP: ConsumerControlCode.CHANNEL_INCREMENT
  (403, 157), -- ecodes.KEY_CHANNELDOWN: ConsumerControlCode.CHANNEL_DECREMENT
  (380, 160), -- ecodes.KEY_VCR2: ConsumerControlCode.VCR_PLUS
  (207, 176), -- ecodes.KEY_PLAY: ConsumerControlCode.PLAY
  (119, 177), -- ecodes.KEY_PAUSE: ConsumerControlCode.PAUSE (duplicate key)
  (167, 178), -- ecodes.KEY_RECORD: ConsumerControlCode.RECORD
  (208, 179), -- ecodes.KEY_FASTFORWARD: ConsumerControlCode.FAST_FORWARD
  (168, 180), -- ecodes.KEY_REWIND: ConsumerControlCode.REWIND
  (163, 181), -- ecodes.KEY_NEXTSONG: ConsumerControlCode.SCAN_NEXT_TRACK
  (165, 182), -- ecodes.KEY_PREVIOUSSONG: ConsumerControlCode.SCAN_PREVIOUS_TRACK
  (166, 183), -- ecodes.KEY_STOPCD: ConsumerControlCode.STOP
  (161, 184), -- ecodes.KEY_EJECTCD: ConsumerControlCode.EJECT
  (439, 188), -- ecodes.KEY_MEDIA_REPEAT: ConsumerControlCode.REPEAT
  (410, 185), -- ecodes.KEY_SHUFFLE: ConsumerControlCode.RANDOM_PLAY
  (409, 245), -- ecodes.KEY_SLOW: ConsumerControlCode.SLOW
  (164, 205), -- ecodes.KEY_PLAYPAUSE: ConsumerControlCode.PLAY_PAUSE
  (582, 207), -- ecodes.KEY_VOICECOMMAND: ConsumerControlCode.VOICE_COMMAND
  (586, 216), -- ecodes.KEY_DICTATE: ConsumerControlCode.START_OR_STOP_VOICE_DICTATION_SESSION
  (585, 217), -- ecodes.KEY_EMOJI_PICKER: ConsumerControlCode.INVOKE_OR_DISMISS_EMOJI_PICKER
  (113, 226), -- ecodes.KEY_MUTE: ConsumerControlCode.MUTE
  (209, 229), -- ecodes.KEY_BASSBOOST: ConsumerControlCode.BASS_BOOST
  (115, 233), -- ecodes.KEY_VOLUMEUP: ConsumerControlCode.VOLUME_INCREMENT
  (114, 234), -- ecodes.KEY_VOLUMEDOWN: ConsumerControlCode.VOLUME_DECREMENT
  (576, 385), -- ecodes.KEY_BUTTONCONFIG: ConsumerControlCode.AL_LAUNCH_BUTTON_CONFIGURATION_TOOL
  (156, 554), -- ecodes.KEY_BOOKMARKS: ConsumerControlCode.AC_BOOKMARKS
  (171, 387), -- ecodes.KEY_CONFIG: ConsumerControlCode.AL_CONSUMER_CONTROL_CONFIGURATION_TOOL
  (421, 388), -- ecodes.KEY_WORDPROCESSOR: ConsumerControlCode.AL_WORD_PROCESSOR
  (422, 389), -- ecodes.KEY_EDITOR: ConsumerControlCode.AL_TEXT_EDITOR
  (423, 390), -- ecodes.KEY_SPREADSHEET: ConsumerControlCode.AL_SPREADSHEET
  (424, 391), -- ecodes.KEY_GRAPHICSEDITOR: ConsumerControlCode.AL_GRAPHICS_EDITOR
  (425, 392), -- ecodes.KEY_PRESENTATION: ConsumerControlCode.AL_PRESENTATION_APP
  (426, 393), -- ecodes.KEY_DATABASE: ConsumerControlCode.AL_DATABASE_APP
  (155, 394), -- ecodes.KEY_MAIL: ConsumerControlCode.AL_EMAIL_READER
  (427, 395), -- ecodes.KEY_NEWS: ConsumerControlCode.AL_NEWSREADER
  (428, 396), -- ecodes.KEY_VOICEMAIL: ConsumerControlCode.AL_VOICEMAIL
  (429, 397), -- ecodes.KEY_ADDRESSBOOK: ConsumerControlCode.AL_CONTACTS_ADDRESS_BOOK
  (397, 398), -- ecodes.KEY_CALENDAR: ConsumerControlCode.AL_CALENDAR_SCHEDULE
  (577, 399), -- ecodes.KEY_TASKMANAGER: ConsumerControlCode.AL_TASK_PROJECT_MANAGER
  (578, 400), -- ecodes.KEY_JOURNAL: ConsumerControlCode.AL_LOG_JOURNAL_TIMECARD
  (219, 401), -- ecodes.KEY_FINANCE: ConsumerControlCode.AL_CHECKBOOK_FINANCE
  (140, 402), -- ecodes.KEY_CALC: ConsumerControlCode.AL_CALCULATOR
  (387, 403), -- ecodes.KEY_PLAYER: ConsumerControlCode.AL_AV_CAPTURE_PLAYBACK
  (144, 436), -- ecodes.KEY_FILE: ConsumerControlCode.AL_FILE_BROWSER
  (216, 409), -- ecodes.KEY_CHAT: ConsumerControlCode.AL_NETWORK_CHAT
  (433, 412), -- ecodes.KEY_LOGOFF: ConsumerControlCode.AL_LOGOFF
  (152, 414), -- ecodes.KEY_COFFEE: ConsumerControlCode.AL_TERMINAL_LOCK_SCREENSAVER
  (579, 415), -- ecodes.KEY_CONTROLPANEL: ConsumerControlCode.AL_CONTROL_PANEL
  (580, 418), -- ecodes.KEY_APPSELECT: ConsumerControlCode.AL_SELECT_TASK_APPLICATION
  (407, 419), -- ecodes.KEY_NEXT: ConsumerControlCode.AL_NEXT_TASK_APPLICATION
  (412, 420), -- ecodes.KEY_PREVIOUS: ConsumerControlCode.AL_PREVIOUS_TASK_APPLICATION
  (235, 423), -- ecodes.KEY_DOCUMENTS: ConsumerControlCode.AL_DOCUMENTS
  (432, 427), -- ecodes.KEY_SPELLCHECK: ConsumerControlCode.AL_SPELL_CHECK
  (374, 430), -- ecodes.KEY_KEYBOARD: ConsumerControlCode.AL_KEYBOARD_LAYOUT
  (581, 433), -- ecodes.KEY_SCREENSAVER: ConsumerControlCode.AL_SCREEN_SAVER
  (442, 438), -- ecodes.KEY_IMAGES: ConsumerControlCode.AL_IMAGE_BROWSER
  (392, 439), -- ecodes.KEY_AUDIO: ConsumerControlCode.AL_AUDIO_BROWSER
  (393, 440), -- ecodes.KEY_VIDEO: ConsumerControlCode.AL_MOVIE_BROWSER
  (430, 444), -- ecodes.KEY_MESSENGER: ConsumerControlCode.AL_INSTANT_MESSAGING
  (583, 459), -- ecodes.KEY_ASSISTANT: ConsumerControlCode.AL_CONTEXT_AWARE_DESKTOP_ASSISTANT
  (181, 513), -- ecodes.KEY_NEW: ConsumerControlCode.AC_NEW
  (134, 514), -- ecodes.KEY_OPEN: ConsumerControlCode.AC_OPEN
  (206, 515), -- ecodes.KEY_CLOSE: ConsumerControlCode.AC_CLOSE
  (234, 519), -- ecodes.KEY_SAVE: ConsumerControlCode.AC_SAVE
  (130, 521), -- ecodes.KEY_PROPS: ConsumerControlCode.AC_PROPERTIES
  (131, 538), -- ecodes.KEY_UNDO: ConsumerControlCode.AC_UNDO
  (133, 539), -- ecodes.KEY_COPY: ConsumerControlCode.AC_COPY
  (137, 540), -- ecodes.KEY_CUT: ConsumerControlCode.AC_CUT
  (135, 541), -- ecodes.KEY_PASTE: ConsumerControlCode.AC_PASTE
  (136, 543), -- ecodes.KEY_FIND: ConsumerControlCode.AC_FIND
  (217, 545), -- ecodes.KEY_SEARCH: ConsumerControlCode.AC_SEARCH
  (354, 546), -- ecodes.KEY_GOTO: ConsumerControlCode.AC_GO_TO
  (172, 547), -- ecodes.KEY_HOMEPAGE: ConsumerControlCode.AC_HOME
  (158, 548), -- ecodes.KEY_BACK: ConsumerControlCode.AC_BACK
  (159, 549), -- ecodes.KEY_FORWARD: ConsumerControlCode.AC_FORWARD
  (128, 550), -- ecodes.KEY_STOP: ConsumerControlCode.AC_STOP
  (173, 551), -- ecodes.KEY_REFRESH: ConsumerControlCode.AC_REFRESH
  (418, 557), -- ecodes.KEY_ZOOMIN: ConsumerControlCode.AC_ZOOM_IN
  (419, 558), -- ecodes.KEY_ZOOMOUT: ConsumerControlCode.AC_ZOOM_OUT
  (420, 559), -- ecodes.KEY_ZOOMRESET: ConsumerControlCode.AC_ZOOM
  (372, 562), -- ecodes.KEY_FULL_SCREEN: ConsumerControlCode.AC_VIEW_TOGGLE
  (177, 563), -- ecodes.KEY_SCROLLUP: ConsumerControlCode.AC_SCROLL_UP
  (178, 564), -- ecodes.KEY_SCROLLDOWN: ConsumerControlCode.AC_SCROLL_DOWN
  (176, 573), -- ecodes.KEY_EDIT: ConsumerControlCode.AC_EDIT
  (223, 607), -- ecodes.KEY_CANCEL: ConsumerControlCode.AC_CANCEL
  (182, 608), -- ecodes.KEY_REDO: ConsumerControlCode.AC_REDO_REPEAT
  (232, 649), -- ecodes.KEY_REPLY: ConsumerControlCode.AC_REPLY
  (233, 651), -- ecodes.KEY_FORWARDMAIL: ConsumerControlCode.AC_FORWARD_MSG
  (231, 652), -- ecodes.KEY_SEND: ConsumerControlCode.AC_SEND
  (584, 669), -- ecodes.KEY_KBD_LAYOUT_NEXT: ConsumerControlCode.AC_NEXT_KEYBOARD_LAYOUT_SELECT
  (204, 674), -- ecodes.KEY_ALL_APPLICATIONS: ConsumerControlCode.AC_DESKTOP_SHOW_ALL_APPLICATIONS
  (608, 711), -- ecodes.KEY_KBDINPUTASSIST_PREV: ConsumerControlCode.KEYBOARD_INPUT_ASSIST_PREVIOUS
  (609, 712), -- ecodes.KEY_KBDINPUTASSIST_NEXT: ConsumerControlCode.KEYBOARD_INPUT_ASSIST_NEXT
  (610, 713), -- ecodes.KEY_KBDINPUTASSIST_PREVGROUP: ConsumerControlCode.KEYBOARD_INPUT_ASSIST_PREVIOUS_GROUP
  (611, 714), -- ecodes.KEY_KBDINPUTASSIST_NEXTGROUP: ConsumerControlCode.KEYBOARD_INPUT_ASSIST_NEXT_GROUP
  (612, 715), -- ecodes.KEY_KBDINPUTASSIST_ACCEPT: ConsumerControlCode.KEYBOARD_INPUT_ASSIST_ACCEPT
  (613, 716), -- ecodes.KEY_KBDINPUTASSIST_CANCEL: ConsumerControlCode.KEYBOARD_INPUT_ASSIST_CANCEL
  (120, 671)] -- ecodes.KEY_SCALE: ConsumerControlCode.AC_DESKTOP_SHOW_ALL_WINDOWS

/-- Lookup in a Python dict built from a literal association list: the value
of the LAST binding of the key wins (later duplicate assignments silently
overwrite earlier ones), and a missing key yields `none` (the `.get(k, None)`
of the source). -/
def dict_get (d : List (Nat × Nat)) (k : Nat) : Option Nat :=
  (d.reverse.find? (fun p => p.1 == k)).map (fun p => p.2)

/-- The `_CONSUMER_KEYS` set of the source (scan codes mapped to consumer-page
usage ids), in source order; membership is all that is used. -/
def _CONSUMER_KEYS : List Nat := [
  116,  -- ecodes.KEY_POWER
  408,  -- ecodes.KEY_RESTART
  142,  -- ecodes.KEY_SLEEP
  256,  -- ecodes.BTN_MISC
  139,  -- ecodes.KEY_MENU
  353,  -- ecodes.KEY_SELECT
  358,  -- ecodes.KEY_INFO
  370,  -- ecodes.KEY_SUBTITLE
  379,  -- ecodes.KEY_VCR
  212,  -- ecodes.KEY_CAMERA
  398,  -- ecodes.KEY_RED
  399,  -- ecodes.KEY_GREEN
  401,  -- ecodes.KEY_BLUE
  400,  -- ecodes.KEY_YELLOW
  375,  -- ecodes.KEY_ASPECT_RATIO
  225,  -- ecodes.KEY_BRIGHTNESSUP
  224,  -- ecodes.KEY_BRIGHTNESSDOWN
  431,  -- ecodes.KEY_BRIGHTNESS_TOGGLE
  592,  -- ecodes.KEY_BRIGHTNESS_MIN
  593,  -- ecodes.KEY_BRIGHTNESS_MAX
  244,  -- ecodes.KEY_BRIGHTNESS_AUTO
  587,  -- ecodes.KEY_CAMERA_ACCESS_ENABLE
  588,  -- ecodes.KEY_CAMERA_ACCESS_DISABLE
  589,  -- ecodes.KEY_CAMERA_ACCESS_TOGGLE
  230,  -- ecodes.KEY_KBDILLUMUP
  229,  -- ecodes.KEY_KBDILLUMDOWN
  228,  -- ecodes.KEY_KBDILLUMTOGGLE
  241,  -- ecodes.KEY_VIDEO_NEXT
  405,  -- ecodes.KEY_LAST
  376,  -- ecodes.KEY_PC
  377,  -- ecodes.KEY_TV
  150,  -- ecodes.KEY_WWW
  389,  -- ecodes.KEY_DVD
  169,  -- ecodes.KEY_PHONE
  362,  -- ecodes.KEY_PROGRAM
  416,  -- ecodes.KEY_VIDEOPHONE
  417,  -- ecodes.KEY_GAMES
  396,  -- ecodes.KEY_MEMO
  383,  -- ecodes.KEY_CD
  386,  -- ecodes.KEY_TUNER
  174,  -- ecodes.KEY_EXIT
  138,  -- ecodes.KEY_HELP
  384,  -- ecodes.KEY_TAPE
  378,  -- ecodes.KEY_TV2
  381,  -- ecodes.KEY_SAT
  366,  -- ecodes.KEY_PVR
  402,  -- ecodes.KEY_CHANNELUP
  403,  -- ecodes.KEY_CHANNELDOWN
  380,  -- ecodes.KEY_VCR2
  207,  -- ecodes.KEY_PLAY
  119,  -- ecodes.KEY_PAUSE
  167,  -- ecodes.KEY_RECORD
  208,  -- ecodes.KEY_FASTFORWARD
  168,  -- ecodes.KEY_REWIND
  163,  -- ecodes.KEY_NEXTSONG
  165,  -- ecodes.KEY_PREVIOUSSONG
  166,  -- ecodes.KEY_STOPCD
  161,  -- ecodes.KEY_EJECTCD
  439,  -- ecodes.KEY_MEDIA_REPEAT
  410,  -- ecodes.KEY_SHUFFLE
  409,  -- ecodes.KEY_SLOW
  164,  -- ecodes.KEY_PLAYPAUSE
  582,  -- ecodes.KEY_VOICECOMMAND
  586,  -- ecodes.KEY_DICTATE
  585,  -- ecodes.KEY_EMOJI_PICKER
  113,  -- ecodes.KEY_MUTE
  209,  -- ecodes.KEY_BASSBOOST
  115,  -- ecodes.KEY_VOLUMEUP
  114,  -- ecodes.KEY_VOLUMEDOWN
  576,  -- ecodes.KEY_BUTTONCONFIG
  156,  -- ecodes.KEY_BOOKMARKS
  171,  -- ecodes.KEY_CONFIG
  421,  -- ecodes.KEY_WORDPROCESSOR
  422,  -- ecodes.KEY_EDITOR
  423,  -- ecodes.KEY_SPREADSHEET
  424,  -- ecodes.KEY_GRAPHICSEDITOR
  425,  -- ecodes.KEY_PRESENTATION
  426,  -- ecodes.KEY_DATABASE
  155,  -- ecodes.KEY_MAIL
  427,  -- ecodes.KEY_NEWS
  428,  -- ecodes.KEY_VOICEMAIL
  429,  -- ecodes.KEY_ADDRESSBOOK
  397,  -- ecodes.KEY_CALENDAR
  577,  -- ecodes.KEY_TASKMANAGER
  578,  -- ecodes.KEY_JOURNAL
  219,  -- ecodes.KEY_FINANCE
  140,  -- ecodes.KEY_CALC
  387,  -- ecodes.KEY_PLAYER
  144,  -- ecodes.KEY_FILE
  216,  -- ecodes.KEY_CHAT
  433,  -- ecodes.KEY_LOGOFF
  152,  -- ecodes.KEY_COFFEE
  579,  -- ecodes.KEY_CONTROLPANEL
  580,  -- ecodes.KEY_APPSELECT
  407,  -- ecodes.KEY_NEXT
  412,  -- ecodes.KEY_PREVIOUS
  235,  -- ecodes.KEY_DOCUMENTS
  432,  -- ecodes.KEY_SPELLCHECK
  374,  -- ecodes.KEY_KEYBOARD
  581,  -- ecodes.KEY_SCREENSAVER
  442,  -- ecodes.KEY_IMAGES
  392,  -- ecodes.KEY_AUDIO
  393,  -- ecodes.KEY_VIDEO
  430,  -- ecodes.KEY_MESSENGER
  583,  -- ecodes.KEY_ASSISTANT
  181,  -- ecodes.KEY_NEW
  134,  -- ecodes.KEY_OPEN
  206,  -- ecodes.KEY_CLOSE
  234,  -- ecodes.KEY_SAVE
  130,  -- ecodes.KEY_PROPS
  131,  -- ecodes.KEY_UNDO
  133,  -- ecodes.KEY_COPY
  137,  -- ecodes.KEY_CUT
  135,  -- ecodes.KEY_PASTE
  136,  -- ecodes.KEY_FIND
  217,  -- ecodes.KEY_SEARCH
  354,  -- ecodes.KEY_GOTO
  172,  -- ecodes.KEY_HOMEPAGE
  158,  -- ecodes.KEY_BACK
  159,  -- ecodes.KEY_FORWARD
  128,  -- ecodes.KEY_STOP
  173,  -- ecodes.KEY_REFRESH
  418,  -- ecodes.KEY_ZOOMIN
  419,  -- ecodes.KEY_ZOOMOUT
  420,  -- ecodes.KEY_ZOOMRESET
  372,  -- ecodes.KEY_FULL_SCREEN
  177,  -- ecodes.KEY_SCROLLUP
  178,  -- ecodes.KEY_SCROLLDOWN
  176,  -- ecodes.KEY_EDIT
  223,  -- ecodes.KEY_CANCEL
  182,  -- ecodes.KEY_REDO
  232,  -- ecodes.KEY_REPLY
  233,  -- ecodes.KEY_FORWARDMAIL
  231,  -- ecodes.KEY_SEND
  584,  -- ecodes.KEY_KBD_LAYOUT_NEXT
  204,  -- ecodes.KEY_ALL_APPLICATIONS
  608,  -- ecodes.KEY_KBDINPUTASSIST_PREV
  609,  -- ecodes.KEY_KBDINPUTASSIST_NEXT
  610,  -- ecodes.KEY_KBDINPUTASSIST_PREVGROUP
  611,  -- ecodes.KEY_KBDINPUTASSIST_NEXTGROUP
  612,  -- ecodes.KEY_KBDINPUTASSIST_ACCEPT
  613,  -- ecodes.KEY_KBDINPUTASSIST_CANCEL
  120]  -- ecodes.KEY_SCALE

/-- The `_MOUSE_BUTTONS` set of the source: BTN_LEFT, BTN_RIGHT, BTN_MIDDLE. -/
def _MOUSE_BUTTONS : List Nat := [272, 273, 274]

/-- Linux relative-axis code `REL_X` (horizontal). -/
def REL_X : Nat := 0

/-- Linux relative-axis code `REL_Y` (vertical). -/
def REL_Y : Nat := 1

/-- Linux relative-axis code `REL_WHEEL`. -/
def REL_WHEEL : Nat := 8

/-- The integer constants of the `Keycode` class (HID keyboard-page usage
ids) that the adapter relies on, as (attribute name, value) pairs — the data
that Python obtains with `dir` plus `getattr`. -/
def Keycode_attrs : List (String × Nat) := [
  ("A", 4), ("B", 5), ("C", 6), ("D", 7), ("E", 8), ("F", 9), ("G", 10),
  ("H", 11), ("I", 12), ("J", 13), ("K", 14), ("L", 15), ("M", 16),
  ("N", 17), ("O", 18), ("P", 19), ("Q", 20), ("R", 21), ("S", 22),
  ("T", 23), ("U", 24), ("V", 25), ("W", 26), ("X", 27), ("Y", 28),
  ("Z", 29), ("ONE", 30), ("TWO", 31), ("THREE", 32), ("FOUR", 33),
  ("FIVE", 34), ("SIX", 35), ("SEVEN", 36), ("EIGHT", 37), ("NINE", 38),
  ("ZERO", 39), ("ENTER", 40), ("ESCAPE", 41), ("BACKSPACE", 42),
  ("TAB", 43), ("SPACEBAR", 44), ("MINUS", 45), ("EQUALS", 46),
  ("LEFT_BRACKET", 47), ("RIGHT_BRACKET", 48), ("POUND", 50),
  ("SEMICOLON", 51), ("QUOTE", 52), ("GRAVE_ACCENT", 53), ("COMMA", 54),
  ("PERIOD", 55), ("FORWARD_SLASH", 56), ("CAPS_LOCK", 57), ("F1", 58),
  ("F2", 59), ("F3", 60), ("F4", 61), ("F5", 62), ("F6", 63), ("F7", 64),
  ("F8", 65), ("F9", 66), ("F10", 67), ("F11", 68), ("F12", 69),
  ("PRINT_SCREEN", 70), ("SCROLL_LOCK", 71), ("PAUSE", 72), ("INSERT", 73),
  ("HOME", 74), ("PAGE_UP", 75), ("DELETE", 76), ("END", 77),
  ("PAGE_DOWN", 78), ("RIGHT_ARROW", 79), ("LEFT_ARROW", 80),
  ("DOWN_ARROW", 81), ("UP_ARROW", 82), ("KEYPAD_NUMLOCK", 83),
  ("KEYPAD_FORWARD_SLASH", 84), ("KEYPAD_ASTERISK", 85),
  ("KEYPAD_MINUS", 86), ("KEYPAD_PLUS", 87), ("KEYPAD_ENTER", 88),
  ("KEYPAD_ONE", 89), ("KEYPAD_TWO", 90), ("KEYPAD_THREE", 91),
  ("KEYPAD_FOUR", 92), ("KEYPAD_FIVE", 93), ("KEYPAD_SIX", 94),
  ("KEYPAD_SEVEN", 95), ("KEYPAD_EIGHT", 96), ("KEYPAD_NINE", 97),
  ("KEYPAD_ZERO", 98), ("KEYPAD_PERIOD", 99), ("KEYPAD_BACKSLASH", 100),
  ("APPLICATION", 101), ("POWER", 102), ("KEYPAD_EQUALS", 103),
  ("F13", 104), ("F14", 105), ("F15", 106), ("F16", 107), ("F17", 108),
  ("F18", 109), ("F19", 110), ("F20", 111), ("F21", 112), ("F22", 113),
  ("F23", 114), ("F24", 115), ("KEYPAD_COMMA", 133),
  ("LEFT_CONTROL", 224), ("LEFT_SHIFT", 225), ("LEFT_ALT", 226),
  ("LEFT_GUI", 227), ("RIGHT_CONTROL", 228), ("RIGHT_SHIFT", 229),
  ("RIGHT_ALT", 230), ("RIGHT_GUI", 231)]

/-- The integer constants of the `ConsumerControlCode` class (HID
consumer-page usage ids) that the adapter relies on. -/
def ConsumerControlCode_attrs : List (String × Nat) := [
  ("POWER", 48), ("RESET", 49), ("SLEEP", 50), ("FUNCTION_BUTTONS", 54),
  ("MENU", 64), ("MENU_PICK", 65),
  ("AL_OEM_FEATURES_TIPS_TUTORIAL_BROWSER", 445), ("CLOSED_CAPTION", 97),
  ("MEDIA_SELECT_VCR", 146), ("SNAPSHOT", 101), ("RED_MENU_BUTTON", 105),
  ("GREEN_MENU_BUTTON", 106), ("BLUE_MENU_BUTTON", 107),
  ("YELLOW_MENU_BUTTON", 108), ("ASPECT", 109),
  ("DISPLAY_BRIGHTNESS_INCREMENT", 111),
  ("DISPLAY_BRIGHTNESS_DECREMENT", 112),
  ("DISPLAY_BACKLIGHT_TOGGLE", 114),
  ("DISPLAY_SET_BRIGHTNESS_TO_MINIMUM", 115),
  ("DISPLAY_SET_BRIGHTNESS_TO_MAXIMUM", 116),
  ("DISPLAY_SET_AUTO_BRIGHTNESS", 117), ("CAMERA_ACCESS_ENABLED", 118),
  ("CAMERA_ACCESS_DISABLED", 119), ("CAMERA_ACCESS_TOGGLE", 120),
  ("KEYBOARD_BRIGHTNESS_INCREMENT", 121),
  ("KEYBOARD_BRIGHTNESS_DECREMENT", 122), ("KEYBOARD_BACKLIGHT_OOC", 124),
  ("MODE_STEP", 130), ("RECALL_LAST", 131), ("MEDIA_SELECT_COMPUTER", 136),
  ("MEDIA_SELECT_TV", 137), ("AL_INTERNET_BROWSER", 406),
  ("MEDIA_SELECT_DVD", 139), ("MEDIA_SELECT_TELEPHONE", 140),
  ("MEDIA_SELECT_PROGRAM_GUIDE", 141), ("MEDIA_SELECT_VIDEO_PHONE", 142),
  ("MEDIA_SELECT_GAMES", 143), ("MEDIA_SELECT_MESSAGES", 144),
  ("MEDIA_SELECT_CD", 145), ("MEDIA_SELECT_TUNER", 147), ("AC_EXIT", 516),
  ("AL_INTEGRATED_HELP_CENTER", 422), ("MEDIA_SELECT_TAPE", 150),
  ("MEDIA_SELECT_CABLE", 151), ("MEDIA_SELECT_SATELLITE", 152),
  ("MEDIA_SELECT_HOME", 154), ("CHANNEL_INCREMENT", 156),
  ("CHANNEL_DECREMENT", 157), ("VCR_PLUS", 160), ("PLAY", 176),
  ("PAUSE", 177), ("RECORD", 178), ("FAST_FORWARD", 179), ("REWIND", 180),
  ("SCAN_NEXT_TRACK", 181), ("SCAN_PREVIOUS_TRACK", 182), ("STOP", 183),
  ("EJECT", 184), ("REPEAT", 188), ("RANDOM_PLAY", 185), ("SLOW", 245),
  ("PLAY_PAUSE", 205), ("VOICE_COMMAND", 207),
  ("START_OR_STOP_VOICE_DICTATION_SESSION", 216),
  ("INVOKE_OR_DISMISS_EMOJI_PICKER", 217), ("MUTE", 226),
  ("BASS_BOOST", 229), ("VOLUME_INCREMENT", 233), ("VOLUME_DECREMENT", 234),
  ("AL_LAUNCH_BUTTON_CONFIGURATION_TOOL", 385), ("AC_BOOKMARKS", 554),
  ("AL_CONSUMER_CONTROL_CONFIGURATION_TOOL", 387),
  ("AL_WORD_PROCESSOR", 388), ("AL_TEXT_EDITOR", 389),
  ("AL_SPREADSHEET", 390), ("AL_GRAPHICS_EDITOR", 391),
  ("AL_PRESENTATION_APP", 392), ("AL_DATABASE_APP", 393),
  ("AL_EMAIL_READER", 394), ("AL_NEWSREADER", 395), ("AL_VOICEMAIL", 396),
  ("AL_CONTACTS_ADDRESS_BOOK", 397), ("AL_CALENDAR_SCHEDULE", 398),
  ("AL_TASK_PROJECT_MANAGER", 399), ("AL_LOG_JOURNAL_TIMECARD", 400),
  ("AL_CHECKBOOK_FINANCE", 401), ("AL_CALCULATOR", 402),
  ("AL_AV_CAPTURE_PLAYBACK", 403), ("AL_FILE_BROWSER", 436),
  ("AL_NETWORK_CHAT", 409), ("AL_LOGOFF", 412),
  ("AL_TERMINAL_LOCK_SCREENSAVER", 414), ("AL_CONTROL_PANEL", 415),
  ("AL_SELECT_TASK_APPLICATION", 418), ("AL_NEXT_TASK_APPLICATION", 419),
  ("AL_PREVIOUS_TASK_APPLICATION", 420), ("AL_DOCUMENTS", 423),
  ("AL_SPELL_CHECK", 427), ("AL_KEYBOARD_LAYOUT", 430),
  ("AL_SCREEN_SAVER", 433), ("AL_IMAGE_BROWSER", 438),
  ("AL_AUDIO_BROWSER", 439), ("AL_MOVIE_BROWSER", 440),
  ("AL_INSTANT_MESSAGING", 444),
  ("AL_CONTEXT_AWARE_DESKTOP_ASSISTANT", 459), ("AC_NEW", 513),
  ("AC_OPEN", 514), ("AC_CLOSE", 515), ("AC_SAVE", 519),
  ("AC_PROPERTIES", 521), ("AC_UNDO", 538), ("AC_COPY", 539),
  ("AC_CUT", 540), ("AC_PASTE", 541), ("AC_FIND", 543), ("AC_SEARCH", 545),
  ("AC_GO_TO", 546), ("AC_HOME", 547), ("AC_BACK", 548),
  ("AC_FORWARD", 549), ("AC_STOP", 550), ("AC_REFRESH", 551),
  ("AC_ZOOM_IN", 557), ("AC_ZOOM_OUT", 558), ("AC_ZOOM", 559),
  ("AC_VIEW_TOGGLE", 562), ("AC_SCROLL_UP", 563), ("AC_SCROLL_DOWN", 564),
  ("AC_EDIT", 573), ("AC_CANCEL", 607), ("AC_REDO_REPEAT", 608),
  ("AC_REPLY", 649), ("AC_FORWARD_MSG", 651), ("AC_SEND", 652),
  ("AC_NEXT_KEYBOARD_LAYOUT_SELECT", 669),
  ("AC_DESKTOP_SHOW_ALL_APPLICATIONS", 674),
  ("KEYBOARD_INPUT_ASSIST_PREVIOUS", 711),
  ("KEYBOARD_INPUT_ASSIST_NEXT", 712),
  ("KEYBOARD_INPUT_ASSIST_PREVIOUS_GROUP", 713),
  ("KEYBOARD_INPUT_ASSIST_NEXT_GROUP", 714),
  ("KEYBOARD_INPUT_ASSIST_ACCEPT", 715),
  ("KEYBOARD_INPUT_ASSIST_CANCEL", 716),
  ("AC_DESKTOP_SHOW_ALL_WINDOWS", 671)]

/-- The integer constants of the `MouseButton` class. -/
def MouseButton_attrs : List (String × Nat) := [
  ("LEFT", 1), ("RIGHT", 2), ("MIDDLE", 4)]

/-- The integer constants of the `ecodes` namespace that the adapter relies
on: every KEY_/BTN_ scan code referenced by the tables above plus the
relative-axis codes. -/
def ecodes_attrs : List (String × Nat) := [
  ("KEY_A", 30), ("KEY_B", 48), ("KEY_C", 46), ("KEY_D", 32),
  ("KEY_E", 18), ("KEY_F", 33), ("KEY_G", 34), ("KEY_H", 35),
  ("KEY_I", 23), ("KEY_J", 36), ("KEY_K", 37), ("KEY_L", 38),
  ("KEY_M", 50), ("KEY_N", 49), ("KEY_O", 24), ("KEY_P", 25),
  ("KEY_Q", 16), ("KEY_R", 19), ("KEY_S", 31), ("KEY_T", 20),
  ("KEY_U", 22), ("KEY_V", 47), ("KEY_W", 17), ("KEY_X", 45),
  ("KEY_Y", 21), ("KEY_Z", 44), ("KEY_1", 2), ("KEY_2", 3), ("KEY_3", 4),
  ("KEY_4", 5), ("KEY_5", 6), ("KEY_6", 7), ("KEY_7", 8), ("KEY_8", 9),
  ("KEY_9", 10), ("KEY_0", 11), ("KEY_ENTER", 28), ("KEY_ESC", 1),
  ("KEY_BACKSPACE", 14), ("KEY_TAB", 15), ("KEY_SPACE", 57),
  ("KEY_MINUS", 12), ("KEY_EQUAL", 13), ("KEY_LEFTBRACE", 26),
  ("KEY_RIGHTBRACE", 27), ("KEY_BACKSLASH", 43), ("KEY_SEMICOLON", 39),
  ("KEY_APOSTROPHE", 40), ("KEY_GRAVE", 41), ("KEY_COMMA", 51),
  ("KEY_DOT", 52), ("KEY_SLASH", 53), ("KEY_CAPSLOCK", 58),
  ("KEY_F1", 59), ("KEY_F2", 60), ("KEY_F3", 61), ("KEY_F4", 62),
  ("KEY_F5", 63), ("KEY_F6", 64), ("KEY_F7", 65), ("KEY_F8", 66),
  ("KEY_F9", 67), ("KEY_F10", 68), ("KEY_F11", 87), ("KEY_F12", 88),
  ("KEY_SYSRQ", 99), ("KEY_SCROLLLOCK", 70), ("KEY_PAUSE", 119),
  ("KEY_INSERT", 110), ("KEY_HOME", 102), ("KEY_PAGEUP", 104),
  ("KEY_DELETE", 111), ("KEY_END", 107), ("KEY_PAGEDOWN", 109),
  ("KEY_RIGHT", 106), ("KEY_LEFT", 105), ("KEY_DOWN", 108),
  ("KEY_UP", 103), ("KEY_NUMLOCK", 69), ("KEY_KPSLASH", 98),
  ("KEY_KPASTERISK", 55), ("KEY_KPMINUS", 74), ("KEY_KPPLUS", 78),
  ("KEY_KPENTER", 96), ("KEY_KP1", 79), ("KEY_KP2", 80), ("KEY_KP3", 81),
  ("KEY_KP4", 75), ("KEY_KP5", 76), ("KEY_KP6", 77), ("KEY_KP7", 71),
  ("KEY_KP8", 72), ("KEY_KP9", 73), ("KEY_KP0", 82), ("KEY_KPDOT", 83),
  ("KEY_102ND", 86), ("KEY_COMPOSE", 127), ("KEY_POWER", 116),
  ("KEY_KPEQUAL", 117), ("KEY_KPCOMMA", 121), ("KEY_F13", 183),
  ("KEY_F14", 184), ("KEY_F15", 185), ("KEY_F16", 186), ("KEY_F17", 187),
  ("KEY_F18", 188), ("KEY_F19", 189), ("KEY_F20", 190), ("KEY_F21", 191),
  ("KEY_F22", 192), ("KEY_F23", 193), ("KEY_F24", 194),
  ("KEY_LEFTCTRL", 29), ("KEY_LEFTSHIFT", 42), ("KEY_LEFTALT", 56),
  ("KEY_LEFTMETA", 125), ("KEY_RIGHTCTRL", 97), ("KEY_RIGHTSHIFT", 54),
  ("KEY_RIGHTALT", 100), ("KEY_RIGHTMETA", 126), ("BTN_LEFT", 272),
  ("BTN_RIGHT", 273), ("BTN_MIDDLE", 274), ("KEY_RESTART", 408),
  ("KEY_SLEEP", 142), ("BTN_MISC", 256), ("KEY_MENU", 139),
  ("KEY_SELECT", 353), ("KEY_INFO", 358), ("KEY_SUBTITLE", 370),
  ("KEY_VCR", 379), ("KEY_CAMERA", 212), ("KEY_RED", 398),
  ("KEY_GREEN", 399), ("KEY_BLUE", 401), ("KEY_YELLOW", 400),
  ("KEY_ASPECT_RATIO", 375), ("KEY_BRIGHTNESSUP", 225),
  ("KEY_BRIGHTNESSDOWN", 224), ("KEY_BRIGHTNESS_TOGGLE", 431),
  ("KEY_BRIGHTNESS_MIN", 592), ("KEY_BRIGHTNESS_MAX", 593),
  ("KEY_BRIGHTNESS_AUTO", 244), ("KEY_CAMERA_ACCESS_ENABLE", 587),
  ("KEY_CAMERA_ACCESS_DISABLE", 588), ("KEY_CAMERA_ACCESS_TOGGLE", 589),
  ("KEY_KBDILLUMUP", 230), ("KEY_KBDILLUMDOWN", 229),
  ("KEY_KBDILLUMTOGGLE", 228), ("KEY_VIDEO_NEXT", 241), ("KEY_LAST", 405),
  ("KEY_PC", 376), ("KEY_TV", 377), ("KEY_WWW", 150), ("KEY_DVD", 389),
  ("KEY_PHONE", 169), ("KEY_PROGRAM", 362), ("KEY_VIDEOPHONE", 416),
  ("KEY_GAMES", 417), ("KEY_MEMO", 396), ("KEY_CD", 383),
  ("KEY_TUNER", 386), ("KEY_EXIT", 174), ("KEY_HELP", 138),
  ("KEY_TAPE", 384), ("KEY_TV2", 378), ("KEY_SAT", 381), ("KEY_PVR", 366),
  ("KEY_CHANNELUP", 402), ("KEY_CHANNELDOWN", 403), ("KEY_VCR2", 380),
  ("KEY_PLAY", 207), ("KEY_RECORD", 167), ("KEY_FASTFORWARD", 208),
  ("KEY_REWIND", 168), ("KEY_NEXTSONG", 163), ("KEY_PREVIOUSSONG", 165),
  ("KEY_STOPCD", 166), ("KEY_EJECTCD", 161), ("KEY_MEDIA_REPEAT", 439),
  ("KEY_SHUFFLE", 410), ("KEY_SLOW", 409), ("KEY_PLAYPAUSE", 164),
  ("KEY_VOICECOMMAND", 582), ("KEY_DICTATE", 586),
  ("KEY_EMOJI_PICKER", 585), ("KEY_MUTE", 113), ("KEY_BASSBOOST", 209),
  ("KEY_VOLUMEUP", 115), ("KEY_VOLUMEDOWN", 114),
  ("KEY_BUTTONCONFIG", 576), ("KEY_BOOKMARKS", 156), ("KEY_CONFIG", 171),
  ("KEY_WORDPROCESSOR", 421), ("KEY_EDITOR", 422),
  ("KEY_SPREADSHEET", 423), ("KEY_GRAPHICSEDITOR", 424),
  ("KEY_PRESENTATION", 425), ("KEY_DATABASE", 426), ("KEY_MAIL", 155),
  ("KEY_NEWS", 427), ("KEY_VOICEMAIL", 428), ("KEY_ADDRESSBOOK", 429),
  ("KEY_CALENDAR", 397), ("KEY_TASKMANAGER", 577), ("KEY_JOURNAL", 578),
  ("KEY_FINANCE", 219), ("KEY_CALC", 140), ("KEY_PLAYER", 387),
  ("KEY_FILE", 144), ("KEY_CHAT", 216), ("KEY_LOGOFF", 433),
  ("KEY_COFFEE", 152), ("KEY_CONTROLPANEL", 579), ("KEY_APPSELECT", 580),
  ("KEY_NEXT", 407), ("KEY_PREVIOUS", 412), ("KEY_DOCUMENTS", 235),
  ("KEY_SPELLCHECK", 432), ("KEY_KEYBOARD", 374),
  ("KEY_SCREENSAVER", 581), ("KEY_IMAGES", 442), ("KEY_AUDIO", 392),
  ("KEY_VIDEO", 393), ("KEY_MESSENGER", 430), ("KEY_ASSISTANT", 583),
  ("KEY_NEW", 181), ("KEY_OPEN", 134), ("KEY_CLOSE", 206),
  ("KEY_SAVE", 234), ("KEY_PROPS", 130), ("KEY_UNDO", 131),
  ("KEY_COPY", 133), ("KEY_CUT", 137), ("KEY_PASTE", 135),
  ("KEY_FIND", 136), ("KEY_SEARCH", 217), ("KEY_GOTO", 354),
  ("KEY_HOMEPAGE", 172), ("KEY_BACK", 158), ("KEY_FORWARD", 159),
  ("KEY_STOP", 128), ("KEY_REFRESH", 173), ("KEY_ZOOMIN", 418),
  ("KEY_ZOOMOUT", 419), ("KEY_ZOOMRESET", 420), ("KEY_FULL_SCREEN", 372),
  ("KEY_SCROLLUP", 177), ("KEY_SCROLLDOWN", 178), ("KEY_EDIT", 176),
  ("KEY_CANCEL", 223), ("KEY_REDO", 182), ("KEY_REPLY", 232),
  ("KEY_FORWARDMAIL", 233), ("KEY_SEND", 231),
  ("KEY_KBD_LAYOUT_NEXT", 584), ("KEY_ALL_APPLICATIONS", 204),
  ("KEY_KBDINPUTASSIST_PREV", 608), ("KEY_KBDINPUTASSIST_NEXT", 609),
  ("KEY_KBDINPUTASSIST_PREVGROUP", 610),
  ("KEY_KBDINPUTASSIST_NEXTGROUP", 611),
  ("KEY_KBDINPUTASSIST_ACCEPT", 612), ("KEY_KBDINPUTASSIST_CANCEL", 613),
  ("KEY_SCALE", 120), ("REL_X", 0), ("REL_Y", 1), ("REL_WHEEL", 8)]

/-- The objects that the adapter passes to `dir`/`getattr`: the `ecodes`
namespace and the three HID code classes. -/
inductive AttrClass where
  | ecodesModule
  | usagePage (t : HidCodeType)
  deriving DecidableEq, Repr

/-- The attribute table of an `AttrClass`. -/
def attrs_of : AttrClass → List (String × Nat)
  | .ecodesModule => ecodes_attrs
  | .usagePage .keycode => Keycode_attrs
  | .usagePage .consumerControl => ConsumerControlCode_attrs
  | .usagePage .mouseButton => MouseButton_attrs

/-- `dir(class_type)`: the attribute names of the object, as enumerated by
the adapter (the `_cached_dir` result; memoization of an immutable list is
observationally the list itself). -/
def dir_of (c : AttrClass) : List String :=
  (attrs_of c).map (fun p => p.1)

/-- `getattr(class_type, attribute, None)`: the value of a named integer
constant, or `none` when the object has no such attribute (the computation
that `_cached_getattr` memoizes). -/
def getattr_pure (c : AttrClass) (a : String) : Option Nat :=
  ((attrs_of c).find? (fun p => p.1 == a)).map (fun p => p.2)

/-- `is_consumer_key` of the source: scan-code membership in `_CONSUMER_KEYS`. -/
def is_consumer_key (event : KeyEvent) : Bool :=
  _CONSUMER_KEYS.contains event.scancode

/-- `is_mouse_button` of the source: scan-code membership in `_MOUSE_BUTTONS`. -/
def is_mouse_button (event : KeyEvent) : Bool :=
  _MOUSE_BUTTONS.contains event.scancode

/-- `get_hid_code_type` of the source: consumer-control membership is tested
first, then mouse-button membership, and `Keycode` is the default. -/
def get_hid_code_type (event : KeyEvent) : HidCodeType :=
  if is_consumer_key event then .consumerControl
  else if is_mouse_button event then .mouseButton
  else .keycode

/-- Python's `str.startswith` on the character sequences of the two strings
(reduces in the kernel, unlike the byte-based `String.startsWith`). -/
def starts_with (s pre : String) : Bool :=
  pre.data.isPrefixOf s.data

/-- `find_key_name` of the source: scan the attribute names of `ecodes` and
return the first whose value equals the event's scan code and whose name
starts with KEY_ or BTN_; `none` when no attribute matches. -/
def find_key_name (event : KeyEvent) : Option String :=
  (dir_of .ecodesModule).find? (fun attr_name =>
    getattr_pure .ecodesModule attr_name == some event.scancode
      && (starts_with attr_name ("KEY_") || starts_with attr_name ("BTN_")))

/-- `find_usage_name` of the source: pick the class via `get_hid_code_type`,
scan its attribute names and return the first whose value equals
`hid_usage_id`.  A `none` usage id matches no integer attribute (Python's
`int == None` is false), giving `none`. -/
def find_usage_name (event : KeyEvent) (hid_usage_id : Option Nat) : Option String :=
  let code_type := AttrClass.usagePage (get_hid_code_type event)
  (dir_of code_type).find? (fun attr_name =>
    getattr_pure code_type attr_name == hid_usage_id)

/-- `evdev_to_hid` of the source: look the scan code up in `_EVDEV_TO_HID`
(`None` default), resolve the diagnostic usage name, and return the pair.
(`find_key_name` is also called, but only to build the debug log line, which
does not influence the returned value.) -/
def evdev_to_hid (event : KeyEvent) : Option Nat × Option String :=
  let hid_usage_id := dict_get _EVDEV_TO_HID event.scancode
  let hid_usage_name := find_usage_name event hid_usage_id
  (hid_usage_id, hid_usage_name)

/-- `get_mouse_movement` of the source: dispatch on the relative-axis code,
populating exactly the matching component of (x, y, mwheel) and leaving the
others at their zero defaults. -/
def get_mouse_movement (event : RelEvent) : Int × Int × Int :=
  if event.code = REL_X then (event.value, 0, 0)
  else if event.code = REL_Y then (0, event.value, 0)
  else if event.code = REL_WHEEL then (0, 0, event.value)
  else (0, 0, 0)

/-- The memoization table of `_cached_getattr`: an association list from
(class, attribute) keys to memoized `getattr` results.  The source uses an
LRU cache of capacity 512; eviction only deletes entries, so every reachable
cache state satisfies the consistency predicate `cache_ok` below. -/
abbrev GetattrCache := List ((AttrClass × String) × Option Nat)

/-- A cache state is consistent when every memoized entry stores exactly the
value the memoized computation would return. -/
def cache_ok (cache : GetattrCache) : Bool :=
  cache.all (fun entry => entry.2 == getattr_pure entry.1.1 entry.1.2)

/-- `_cached_getattr` of the source with the memoization state explicit: a
hit returns the stored value, a miss computes `getattr` and stores it. -/
def _cached_getattr (cache : GetattrCache) (c : AttrClass) (a : String) :
    Option Nat × GetattrCache :=
  match cache.find? (fun entry => decide (entry.1 = (c, a))) with
  | some entry => (entry.2, cache)
  | none => (getattr_pure c a, ((c, a), getattr_pure c a) :: cache)

/-- The attribute loop of `find_key_name`, threading the `_cached_getattr`
memoization state through the iterations. -/
def find_key_name_loop (sc : Nat) :
    List String → GetattrCache → Option String × GetattrCache
  | [], cache => (none, cache)
  | a :: rest, cache =>
    let r := _cached_getattr cache .ecodesModule a
    if r.1 == some sc && (starts_with a ("KEY_") || starts_with a ("BTN_")) then
      (some a, r.2)
    else find_key_name_loop sc rest r.2

/-- `find_key_name` with the memoization state explicit. -/
def find_key_name_cached (cache : GetattrCache) (event : KeyEvent) :
    Option String × GetattrCache :=
  find_key_name_loop event.scancode (dir_of .ecodesModule) cache

/-- The attribute loop of `find_usage_name`, threading the `_cached_getattr`
memoization state through the iterations. -/
def find_usage_name_loop (c : AttrClass) (hid_usage_id : Option Nat) :
    List String → GetattrCache → Option String × GetattrCache
  | [], cache => (none, cache)
  | a :: rest, cache =>
    let r := _cached_getattr cache c a
    if r.1 == hid_usage_id then (some a, r.2)
    else find_usage_name_loop c hid_usage_id rest r.2

/-- `find_usage_name` with the memoization state explicit. -/
def find_usage_name_cached (cache : GetattrCache) (event : KeyEvent)
    (hid_usage_id : Option Nat) : Option String × GetattrCache :=
  let code_type := AttrClass.usagePage (get_hid_code_type event)
  find_usage_name_loop code_type hid_usage_id (dir_of code_type) cache

/-- `evdev_to_hid` with the memoization state explicit, performing the
table lookup, the key-name resolution and the usage-name resolution in
source order. -/
def evdev_to_hid_cached (cache : GetattrCache) (event : KeyEvent) :
    (Option Nat × Option String) × GetattrCache :=
  let hid_usage_id := dict_get _EVDEV_TO_HID event.scancode
  let r1 := find_key_name_cached cache event
  let r2 := find_usage_name_cached r1.2 event hid_usage_id
  ((hid_usage_id, r2.1), r2.2)

/-- Count of non-zero components of a decoded (x, y, wheel) motion triple. -/
def nonzero_fields (t : Int × Int × Int) : Nat :=
  (if t.1 ≠ 0 then 1 else 0) + (if t.2.1 ≠ 0 then 1 else 0)
    + (if t.2.2 ≠ 0 then 1 else 0)

/-- A successful dict lookup returns a binding present in the literal. -/
theorem dict_get_mem {d : List (Nat × Nat)} {k v : Nat}
    (h : dict_get d k = some v) : (k, v) ∈ d := by
  unfold dict_get at h
  cases hf : d.reverse.find? (fun p => p.1 == k) with
  | none => simp [hf] at h
  | some p =>
    have hm : p ∈ d := List.mem_reverse.mp (List.mem_of_find?_eq_some hf)
    have hp := List.find?_some hf
    have h1 : p.1 = k := by simpa using hp
    have h2 : p.2 = v := by simp [hf] at h; exact h
    have hpkv : p = (k, v) := by
      cases p
      simp_all
    rwa [hpkv] at hm
/-- A key that is not in the literal looks up to `none`. -/
theorem dict_get_eq_none {d : List (Nat × Nat)} {k : Nat}
    (h : k ∉ d.map (fun p => p.1)) : dict_get d k = none := by
  unfold dict_get
  rw [List.find?_eq_none.mpr]
  · rfl
  · intro p hp hbeq
    exact h (List.mem_map.mpr ⟨p, List.mem_reverse.mp hp, by simpa using hbeq⟩)

/-- A successful `getattr` returns a pair present in the attribute table. -/
theorem getattr_pure_mem {c : AttrClass} {a : String} {v : Nat}
    (h : getattr_pure c a = some v) : (a, v) ∈ attrs_of c := by
  unfold getattr_pure at h
  cases hf : (attrs_of c).find? (fun p => p.1 == a) with
  | none => simp [hf] at h
  | some p =>
    have hm : p ∈ attrs_of c := List.mem_of_find?_eq_some hf
    have hp := List.find?_some hf
    have h1 : p.1 = a := by simpa using hp
    have h2 : p.2 = v := by simp [hf] at h; exact h
    have hpav : p = (a, v) := by
      cases p
      simp_all
    rwa [hpav] at hm

/-- Every name enumerated by `dir` has a `getattr` value. -/
theorem getattr_pure_isSome_of_mem_dir {c : AttrClass} {a : String}
    (h : a ∈ dir_of c) : (getattr_pure c a).isSome := by
  unfold dir_of at h
  obtain ⟨p, hp, hpa⟩ := List.mem_map.mp h
  unfold getattr_pure
  have : ((attrs_of c).find? (fun q => q.1 == a)).isSome :=
    List.find?_isSome.mpr ⟨p, hp, by simp [hpa]⟩
  simpa using this

/-- On a consistent cache, `_cached_getattr` returns what plain `getattr`
would return (hit or miss). -/
theorem cached_getattr_fst (cache : GetattrCache) (c : AttrClass) (a : String)
    (h : cache_ok cache = true) :
    (_cached_getattr cache c a).1 = getattr_pure c a := by
  unfold _cached_getattr
  cases hf : cache.find? (fun entry => decide (entry.1 = (c, a))) with
  | none => simp [hf]
  | some entry =>
    have hmem := List.mem_of_find?_eq_some hf
    have hpred := List.find?_some hf
    have h1 : entry.1 = (c, a) := of_decide_eq_true hpred
    have h2 := List.all_eq_true.mp h entry hmem
    have h3 : entry.2 = getattr_pure entry.1.1 entry.1.2 := by simpa using h2
    simp [hf, h3, h1]

/-- `_cached_getattr` preserves cache consistency. -/
theorem cached_getattr_ok (cache : GetattrCache) (c : AttrClass) (a : String)
    (h : cache_ok cache = true) :
    cache_ok (_cached_getattr cache c a).2 = true := by
  unfold _cached_getattr
  cases hf : cache.find? (fun entry => decide (entry.1 = (c, a))) with
  | none => simp [hf, cache_ok] at h ⊢; exact h
  | some entry => simpa [hf] using h

/-- On a consistent cache, the `find_key_name` loop computes the same first
match as a pure scan, and leaves the cache consistent. -/
theorem find_key_name_loop_spec (sc : Nat) (l : List String) :
    ∀ cache : GetattrCache, cache_ok cache = true →
      (find_key_name_loop sc l cache).1
          = l.find? (fun a => getattr_pure .ecodesModule a == some sc
              && (starts_with a ("KEY_") || starts_with a ("BTN_")))
        ∧ cache_ok (find_key_name_loop sc l cache).2 = true := by
  induction l with
  | nil => intro cache h; exact ⟨rfl, h⟩
  | cons a rest ih =>
    intro cache h
    have hfst := cached_getattr_fst cache .ecodesModule a h
    have hok := cached_getattr_ok cache .ecodesModule a h
    simp only [find_key_name_loop, List.find?, hfst]
    by_cases hc : (getattr_pure .ecodesModule a == some sc
        && (starts_with a ("KEY_") || starts_with a ("BTN_"))) = true
    · simp [hc]
      exact hok
    · simp only [Bool.not_eq_true] at hc
      simp [hc]
      exact ih _ hok

/-- On a consistent cache, the `find_usage_name` loop computes the same
first match as a pure scan, and leaves the cache consistent. -/
theorem find_usage_name_loop_spec (c : AttrClass) (hid_usage_id : Option Nat)
    (l : List String) :
    ∀ cache : GetattrCache, cache_ok cache = true →
      (find_usage_name_loop c hid_usage_id l cache).1
          = l.find? (fun a => getattr_pure c a == hid_usage_id)
        ∧ cache_ok (find_usage_name_loop c hid_usage_id l cache).2 = true := by
  induction l with
  | nil => intro cache h; exact ⟨rfl, h⟩
  | cons a rest ih =>
    intro cache h
    have hfst := cached_getattr_fst cache c a h
    have hok := cached_getattr_ok cache c a h
    simp only [find_usage_name_loop, List.find?, hfst]
    by_cases hc : (getattr_pure c a == hid_usage_id) = true
    · simp [hc]
      exact hok
    · simp only [Bool.not_eq_true] at hc
      simp [hc]
      exact ih _ hok

/-- `find_key_name_cached` agrees with `find_key_name` on any consistent
cache and preserves consistency. -/
theorem find_key_name_cached_spec (cache : GetattrCache) (e : KeyEvent)
    (h : cache_ok cache = true) :
    (find_key_name_cached cache e).1 = find_key_name e
      ∧ cache_ok (find_key_name_cached cache e).2 = true :=
  find_key_name_loop_spec e.scancode (dir_of .ecodesModule) cache h

/-- `find_usage_name_cached` agrees with `find_usage_name` on any consistent
cache and preserves consistency. -/
theorem find_usage_name_cached_spec (cache : GetattrCache) (e : KeyEvent)
    (hid_usage_id : Option Nat) (h : cache_ok cache = true) :
    (find_usage_name_cached cache e hid_usage_id).1 = find_usage_name e hid_usage_id
      ∧ cache_ok (find_usage_name_cached cache e hid_usage_id).2 = true :=
  find_usage_name_loop_spec (.usagePage (get_hid_code_type e)) hid_usage_id
    (dir_of (.usagePage (get_hid_code_type e))) cache h

/-- `evdev_to_hid_cached` agrees with `evdev_to_hid` on any consistent cache
and preserves consistency. -/
theorem evdev_to_hid_cached_spec (cache : GetattrCache) (e : KeyEvent)
    (h : cache_ok cache = true) :
    (evdev_to_hid_cached cache e).1 = evdev_to_hid e
      ∧ cache_ok (evdev_to_hid_cached cache e).2 = true := by
  obtain ⟨h1, hok1⟩ := find_key_name_cached_spec cache e h
  obtain ⟨h2, hok2⟩ := find_usage_name_cached_spec (find_key_name_cached cache e).2 e
    (dict_get _EVDEV_TO_HID e.scancode) hok1
  unfold evdev_to_hid_cached evdev_to_hid
  exact ⟨by simp [h2], hok2⟩

/-- Association lookup in a table with pairwise-distinct names finds the
value of any member pair. -/
theorem assoc_lookup_of_mem_nodup {l : List (String × Nat)} {a : String} {v : Nat}
    (hnd : (l.map (fun p => p.1)).Nodup) (hmem : (a, v) ∈ l) :
    (l.find? (fun p => p.1 == a)).map (fun p => p.2) = some v := by
  induction l with
  | nil => cases hmem
  | cons p rest ih =>
    rw [List.map_cons, List.nodup_cons] at hnd
    rcases List.mem_cons.mp hmem with heq | htail
    · rw [← heq]
      simp [List.find?]
    · have hne : (p.1 == a) = false := by
        rw [beq_eq_false_iff_ne]
        intro hcontra
        exact hnd.1 (hcontra ▸ List.mem_map.mpr ⟨(a, v), htail, rfl⟩)
      simp only [List.find?, hne]
      exact ih hnd.2 htail

/-- The attribute names of every usage-page class are pairwise distinct. -/
theorem usage_attrs_names_nodup (t : HidCodeType) :
    ((attrs_of (.usagePage t)).map (fun p => p.1)).Nodup := by
  cases t <;> decide

/-- C1: the "power" (116) and "pause" (119) scan codes each occur twice as
keys of the `_EVDEV_TO_HID` literal, first with the Keyboard-page usage id
(`Keycode.POWER` = 102, resp. `Keycode.PAUSE` = 72) and then with the
consumer-page usage id (`ConsumerControlCode.POWER` = 48, resp.
`ConsumerControlCode.PAUSE` = 177).  The dict literal is single-valued per
key, so the later ConsumerControl binding silently overwrites the earlier
Keyboard one: `evdev_to_hid` returns the ConsumerControl usage id for those
scan codes, and the Keyboard usage ids 102 and 72 are returned for no input
whatsoever. -/
theorem power_pause_consumer_wins :
    ((_EVDEV_TO_HID.filter (fun p => p.1 == 116)).map (fun p => p.2) = [102, 48]
      ∧ (_EVDEV_TO_HID.filter (fun p => p.1 == 119)).map (fun p => p.2) = [72, 177])
    ∧ (∀ e : KeyEvent, e.scancode = 116 → (evdev_to_hid e).1 = some 48)
    ∧ (∀ e : KeyEvent, e.scancode = 119 → (evdev_to_hid e).1 = some 177)
    ∧ (∀ e : KeyEvent, (evdev_to_hid e).1 ≠ some 102 ∧ (evdev_to_hid e).1 ≠ some 72) := by
  refine ⟨by decide, ?_, ?_, ?_⟩
  · intro e h
    show dict_get _EVDEV_TO_HID e.scancode = some 48
    rw [h]
    decide
  · intro e h
    show dict_get _EVDEV_TO_HID e.scancode = some 177
    rw [h]
    decide
  · intro e
    have hpair : (evdev_to_hid e).1 = dict_get _EVDEV_TO_HID e.scancode := rfl
    constructor
    · intro hcontra
      rw [hpair] at hcontra
      have hmem : (e.scancode, 102) ∈ _EVDEV_TO_HID := dict_get_mem hcontra
      have hall : ∀ p ∈ _EVDEV_TO_HID, p.2 = 102 → p.1 = 116 := by decide
      have hsc : e.scancode = 116 := hall _ hmem rfl
      rw [hsc] at hcontra
      have h48 : dict_get _EVDEV_TO_HID 116 = some 48 := by decide
      rw [h48] at hcontra
      simp at hcontra
    · intro hcontra
      rw [hpair] at hcontra
      have hmem : (e.scancode, 72) ∈ _EVDEV_TO_HID := dict_get_mem hcontra
      have hall : ∀ p ∈ _EVDEV_TO_HID, p.2 = 72 → p.1 = 119 := by decide
      have hsc : e.scancode = 119 := hall _ hmem rfl
      rw [hsc] at hcontra
      have h177 : dict_get _EVDEV_TO_HID 119 = some 177 := by decide
      rw [h177] at hcontra
      simp at hcontra

/-- Witness for C1's conditional parts, at the power and pause scan codes. -/
theorem power_pause_consumer_wins_witness :
    (evdev_to_hid ⟨116, 0⟩).1 = some 48 ∧ (evdev_to_hid ⟨119, 0⟩).1 = some 177 :=
  ⟨power_pause_consumer_wins.2.1 ⟨116, 0⟩ rfl,
   power_pause_consumer_wins.2.2.1 ⟨119, 0⟩ rfl⟩

/-- C3: a scan code absent from `_EVDEV_TO_HID` translates to `(none, none)`;
the embedding is a total function (as is the source: `.get` with a `None`
default plus attribute scans), so absence surfaces only as the none result,
never as an exception or abort. -/
theorem unmapped_key_translates_to_none (e : KeyEvent)
    (h : e.scancode ∉ _EVDEV_TO_HID.map (fun p => p.1)) :
    evdev_to_hid e = (none, none) := by
  have hid : dict_get _EVDEV_TO_HID e.scancode = none := dict_get_eq_none h
  have hpair : evdev_to_hid e = (dict_get _EVDEV_TO_HID e.scancode,
      find_usage_name e (dict_get _EVDEV_TO_HID e.scancode)) := rfl
  have hname : find_usage_name e none = none := by
    unfold find_usage_name
    apply List.find?_eq_none.mpr
    intro a ha
    obtain ⟨x, hx⟩ := Option.isSome_iff_exists.mp (getattr_pure_isSome_of_mem_dir ha)
    simp [hx]
  rw [hpair, hid, hname]

/-- Witness for C3 at scan code 0 (KEY_RESERVED), which the table omits. -/
theorem unmapped_key_translates_to_none_witness :
    evdev_to_hid ⟨0, 1⟩ = (none, none) :=
  unmapped_key_translates_to_none ⟨0, 1⟩ (by decide)

/-- C5: `get_mouse_movement` dispatches on the relative-axis code: REL_X
fills the first component, REL_Y the second, REL_WHEEL the third, and any
other axis code yields the all-zero triple. -/
theorem get_mouse_movement_dispatch (v : Int) :
    get_mouse_movement ⟨REL_X, v⟩ = (v, 0, 0)
    ∧ get_mouse_movement ⟨REL_Y, v⟩ = (0, v, 0)
    ∧ get_mouse_movement ⟨REL_WHEEL, v⟩ = (0, 0, v)
    ∧ ∀ c, c ≠ REL_X → c ≠ REL_Y → c ≠ REL_WHEEL →
        get_mouse_movement ⟨c, v⟩ = (0, 0, 0) := by
  refine ⟨rfl, rfl, rfl, ?_⟩
  intro c h0 h1 h8
  simp [get_mouse_movement, h0, h1, h8]

/-- Witness for C5 at the magnitudes named by the spec (-5, 3, 1) and at the
unrecognized axis REL_HWHEEL (6). -/
theorem get_mouse_movement_dispatch_witness :
    get_mouse_movement ⟨0, -5⟩ = (-5, 0, 0)
    ∧ get_mouse_movement ⟨1, 3⟩ = (0, 3, 0)
    ∧ get_mouse_movement ⟨8, 1⟩ = (0, 0, 1)
    ∧ get_mouse_movement ⟨6, 1⟩ = (0, 0, 0) :=
  ⟨(get_mouse_movement_dispatch (-5)).1,
   (get_mouse_movement_dispatch 3).2.1,
   (get_mouse_movement_dispatch 1).2.2.1,
   (get_mouse_movement_dispatch 1).2.2.2 6 (by decide) (by decide) (by decide)⟩

/-- C6 counterexample: a relative event on an axis the decoder does not
model (REL_HWHEEL = 6, magnitude 1) decodes to (0, 0, 0), in which no field
is non-zero — refuting "exactly one field of the resulting MotionSample is
non-zero" for every decoded relative-axis event. -/
theorem motion_exactly_one_nonzero_cex :
    ¬ nonzero_fields (get_mouse_movement ⟨6, 1⟩) = 1 := by decide

/-- C6 amended: at most one field of the decoded triple is non-zero (the
all-zero triple arises for unrecognized axes and for zero magnitudes). -/
theorem motion_at_most_one_nonzero (e : RelEvent) :
    nonzero_fields (get_mouse_movement e) ≤ 1 := by
  unfold get_mouse_movement
  split_ifs <;> simp [nonzero_fields] <;> split_ifs <;> simp

/-- C8: translation never consults the event's logical direction — two
events with the same scan code and different key states translate
identically. -/
theorem evdev_to_hid_direction_independent (sc d d' : Nat) :
    evdev_to_hid ⟨sc, d⟩ = evdev_to_hid ⟨sc, d'⟩ := rfl

/-- C4: `get_hid_code_type` is total — every event classifies to exactly one
of the three pages — and follows the stated priority: consumer-control
membership is tested first and wins, then mouse-button membership, and
`Keycode` is the default.  In particular a scan code lying in both sets
classifies as ConsumerControl, because the consumer test precedes the mouse
test (second conjunct, which ignores mouse membership entirely). -/
theorem get_hid_code_type_total_priority (e : KeyEvent) :
    (get_hid_code_type e = .keycode ∨ get_hid_code_type e = .consumerControl
      ∨ get_hid_code_type e = .mouseButton)
    ∧ (e.scancode ∈ _CONSUMER_KEYS → get_hid_code_type e = .consumerControl)
    ∧ (e.scancode ∉ _CONSUMER_KEYS → e.scancode ∈ _MOUSE_BUTTONS →
        get_hid_code_type e = .mouseButton)
    ∧ (e.scancode ∉ _CONSUMER_KEYS → e.scancode ∉ _MOUSE_BUTTONS →
        get_hid_code_type e = .keycode) := by
  have hck : is_consumer_key e = true ↔ e.scancode ∈ _CONSUMER_KEYS := by
    simp [is_consumer_key, List.elem_iff]
  have hmb : is_mouse_button e = true ↔ e.scancode ∈ _MOUSE_BUTTONS := by
    simp [is_mouse_button, List.elem_iff]
  refine ⟨?_, ?_, ?_, ?_⟩
  · unfold get_hid_code_type
    split_ifs <;> simp
  · intro hm
    unfold get_hid_code_type
    rw [if_pos (hck.mpr hm)]
  · intro hnc hm
    unfold get_hid_code_type
    rw [if_neg (fun hcontra => hnc (hck.mp hcontra)), if_pos (hmb.mpr hm)]
  · intro hnc hnm
    unfold get_hid_code_type
    rw [if_neg (fun hcontra => hnc (hck.mp hcontra)),
      if_neg (fun hcontra => hnm (hmb.mp hcontra))]

/-- Witness for C4 at a consumer key (KEY_VOLUMEUP = 115), a mouse button
(BTN_LEFT = 272) and a plain keyboard key (KEY_A = 30). -/
theorem get_hid_code_type_total_priority_witness :
    get_hid_code_type ⟨115, 1⟩ = .consumerControl
    ∧ get_hid_code_type ⟨272, 1⟩ = .mouseButton
    ∧ get_hid_code_type ⟨30, 1⟩ = .keycode :=
  ⟨(get_hid_code_type_total_priority ⟨115, 1⟩).2.1 (by decide),
   (get_hid_code_type_total_priority ⟨272, 1⟩).2.2.1 (by decide) (by decide),
   (get_hid_code_type_total_priority ⟨30, 1⟩).2.2.2 (by decide) (by decide)⟩

/-- C9: every scan code in the consumer-control set or the mouse-button set
is a key of `_EVDEV_TO_HID`, so `evdev_to_hid` returns a `none` usage id
only for events that classify as Keyboard. -/
theorem nonkeyboard_always_mapped (e : KeyEvent) :
    (get_hid_code_type e ≠ .keycode → ((evdev_to_hid e).1).isSome = true)
    ∧ ((evdev_to_hid e).1 = none → get_hid_code_type e = .keycode) := by
  have hmain : ∀ sc ∈ _CONSUMER_KEYS ++ _MOUSE_BUTTONS,
      (dict_get _EVDEV_TO_HID sc).isSome = true := by decide
  have hck : is_consumer_key e = true ↔ e.scancode ∈ _CONSUMER_KEYS := by
    simp [is_consumer_key, List.elem_iff]
  have hmb : is_mouse_button e = true ↔ e.scancode ∈ _MOUSE_BUTTONS := by
    simp [is_mouse_button, List.elem_iff]
  have hmem : get_hid_code_type e ≠ .keycode →
      e.scancode ∈ _CONSUMER_KEYS ++ _MOUSE_BUTTONS := by
    intro h
    unfold get_hid_code_type at h
    by_cases h1 : is_consumer_key e = true
    · exact List.mem_append.mpr (Or.inl (hck.mp h1))
    · rw [if_neg h1] at h
      by_cases h2 : is_mouse_button e = true
      · exact List.mem_append.mpr (Or.inr (hmb.mp h2))
      · rw [if_neg h2] at h
        exact absurd rfl h
  have hpair : (evdev_to_hid e).1 = dict_get _EVDEV_TO_HID e.scancode := rfl
  constructor
  · intro h
    rw [hpair]
    exact hmain _ (hmem h)
  · intro h
    by_contra hne
    have hsome := hmain _ (hmem hne)
    rw [hpair] at h
    rw [h] at hsome
    simp at hsome

/-- Witness for C9 at the left mouse button (mapped, non-Keyboard) and at
scan code 0 (unmapped, hence Keyboard-classified). -/
theorem nonkeyboard_always_mapped_witness :
    ((evdev_to_hid ⟨272, 1⟩).1).isSome = true ∧ get_hid_code_type ⟨0, 1⟩ = .keycode :=
  ⟨(nonkeyboard_always_mapped ⟨272, 1⟩).1 (by decide),
   (nonkeyboard_always_mapped ⟨0, 1⟩).2 (by decide)⟩

/-- C2: every scan code that is a key of `_EVDEV_TO_HID` translates to that
table entry's (last-binding) value, together with a non-none diagnostic
usage name that is an attribute, with exactly that value, of the class
`get_hid_code_type` selects for the code. -/
theorem mapped_key_translates_with_name (e : KeyEvent)
    (h : e.scancode ∈ _EVDEV_TO_HID.map (fun p => p.1)) :
    ∃ v n, dict_get _EVDEV_TO_HID e.scancode = some v
      ∧ evdev_to_hid e = (some v, some n)
      ∧ (n, v) ∈ attrs_of (.usagePage (get_hid_code_type e)) := by
  have hvall : (_EVDEV_TO_HID.map (fun p => p.1)).all
      (fun sc => (dict_get _EVDEV_TO_HID sc).isSome) = true := by decide
  obtain ⟨v, hv⟩ := Option.isSome_iff_exists.mp (List.all_eq_true.mp hvall _ h)
  have hanyall : (_EVDEV_TO_HID.map (fun p => p.1)).all (fun sc =>
      (attrs_of (.usagePage (get_hid_code_type ⟨sc, 0⟩))).any
        (fun p => some p.2 == dict_get _EVDEV_TO_HID sc)) = true := by decide
  have hany := List.all_eq_true.mp hanyall _ h
  have hct : get_hid_code_type ⟨e.scancode, 0⟩ = get_hid_code_type e := rfl
  rw [hct, hv] at hany
  obtain ⟨p, hpmem, hpv⟩ := List.any_eq_true.mp hany
  have hpv2 : p.2 = v := by simpa using hpv
  have hpav : p = (p.1, v) := by
    cases p
    simp_all
  have hget : getattr_pure (.usagePage (get_hid_code_type e)) p.1 = some v :=
    assoc_lookup_of_mem_nodup (usage_attrs_names_nodup _) (hpav ▸ hpmem)
  have hfind : (find_usage_name e (some v)).isSome := by
    unfold find_usage_name
    exact List.find?_isSome.mpr
      ⟨p.1, List.mem_map.mpr ⟨(p.1, v), hpav ▸ hpmem, rfl⟩, by simp [hget]⟩
  obtain ⟨n, hn⟩ := Option.isSome_iff_exists.mp hfind
  refine ⟨v, n, hv, ?_, ?_⟩
  · have hpair : evdev_to_hid e = (dict_get _EVDEV_TO_HID e.scancode,
        find_usage_name e (dict_get _EVDEV_TO_HID e.scancode)) := rfl
    rw [hpair, hv, hn]
  · unfold find_usage_name at hn
    have hpred := List.find?_some hn
    have hgn : getattr_pure (.usagePage (get_hid_code_type e)) n = some v := by
      simpa using hpred
    exact getattr_pure_mem hgn

/-- Witness for C2 at KEY_A (scan code 30). -/
theorem mapped_key_translates_with_name_witness :
    ∃ v n, dict_get _EVDEV_TO_HID 30 = some v
      ∧ evdev_to_hid ⟨30, 1⟩ = (some v, some n)
      ∧ (n, v) ∈ attrs_of (.usagePage (get_hid_code_type ⟨30, 1⟩)) :=
  mapped_key_translates_with_name ⟨30, 1⟩ (by decide)

/-- C7: translation and name resolution are idempotent with respect to the
memoization state — on any consistent cache (the empty, cold cache and every
cache reachable by prior calls alike), the cached computations return
exactly what the pure functions return, and leave the cache consistent. -/
theorem translation_cache_idempotent (e : KeyEvent) (cache : GetattrCache)
    (h : cache_ok cache = true) :
    (evdev_to_hid_cached cache e).1 = evdev_to_hid e
    ∧ (find_key_name_cached cache e).1 = find_key_name e
    ∧ (find_usage_name_cached cache e (dict_get _EVDEV_TO_HID e.scancode)).1
        = find_usage_name e (dict_get _EVDEV_TO_HID e.scancode)
    ∧ cache_ok (evdev_to_hid_cached cache e).2 = true := by
  obtain ⟨h1, hok1⟩ := evdev_to_hid_cached_spec cache e h
  exact ⟨h1, (find_key_name_cached_spec cache e h).1,
    (find_usage_name_cached_spec cache e (dict_get _EVDEV_TO_HID e.scancode) h).1, hok1⟩

/-- Witness for C7: translating KEY_A on the cold cache and again on the
warm cache produced by the first call gives the pure-function result both
times. -/
theorem translation_cache_idempotent_witness :
    (evdev_to_hid_cached [] ⟨30, 1⟩).1 = evdev_to_hid ⟨30, 1⟩
    ∧ (evdev_to_hid_cached ((evdev_to_hid_cached [] ⟨30, 1⟩).2) ⟨30, 1⟩).1
        = evdev_to_hid ⟨30, 1⟩ :=
  ⟨(translation_cache_idempotent ⟨30, 1⟩ [] rfl).1,
   (translation_cache_idempotent ⟨30, 1⟩ ((evdev_to_hid_cached [] ⟨30, 1⟩).2)
      (translation_cache_idempotent ⟨30, 1⟩ [] rfl).2.2.2).1⟩

/-- C10: whenever `find_key_name` returns a name, that name starts with KEY_
or BTN_ and its value in the `ecodes` namespace is exactly the event's scan
code; no other prefix and no mismatched value can be returned. -/
theorem find_key_name_sound (e : KeyEvent) (n : String)
    (h : find_key_name e = some n) :
    (starts_with n ("KEY_") = true ∨ starts_with n ("BTN_") = true)
      ∧ (n, e.scancode) ∈ ecodes_attrs := by
  unfold find_key_name at h
  have hpred := List.find?_some h
  simp only [Bool.and_eq_true, Bool.or_eq_true] at hpred
  obtain ⟨hval, hpre⟩ := hpred
  have hgn : getattr_pure .ecodesModule n = some e.scancode := by
    simpa using hval
  exact ⟨hpre, getattr_pure_mem hgn⟩

/-- Witness for C10 at KEY_A (scan code 30). -/
theorem find_key_name_sound_witness :
    (starts_with "KEY_A" ("KEY_") = true ∨ starts_with "KEY_A" ("BTN_") = true)
      ∧ ("KEY_A", 30) ∈ ecodes_attrs :=
  find_key_name_sound ⟨30, 1⟩ "KEY_A" (by decide)
